import Mathlib

/-!
Shallow embedding of the `links` bookmark server (src/main.rs) and proofs
about its request-handling pipeline: route dispatch, the submission handler,
the component renderer, the static-asset server, the persistence layer and
the error taxonomy.

Conventions of the embedding:
- Rust `String`/`&str` values are Lean `String`s; where character-level
  recursion is needed (the asset-path rewriting of `files`) paths are
  `List Char`.
- The SQLite database behind the `rizz` crate is modelled as the list of
  stored `Link` rows in insertion order, plus a `Schema` value for the
  migration step.  `f64` timestamps are modelled as rationals: the claims
  about them concern only their ordering.
- Fallible Rust code returning `Res<T> = Result<T, Error>` becomes
  `Except Error T`; a `todo!()` panic in a match arm is modelled as `none`
  of an `Option` result.
-/

namespace Links

/-- Application error type, src/main.rs `enum Error` (lines 166-170). -/
inductive Error where
  | NotFound : Error
  | Database : String → Error
deriving DecidableEq, Repr

/-- Error type of the `rizz` storage crate, as matched by
`From<rizz::Error> for Error` in src/main.rs (lines 265-277). -/
inductive RizzError where
  | ConnectionClosed : RizzError
  | Close : String → RizzError
  | Database : String → RizzError
  | MissingFrom : RizzError
  | InsertError : String → RizzError
  | SqlConversion : String → RizzError
  | RowNotFound : RizzError
deriving DecidableEq, Repr

/-- The `From<rizz::Error> for Error` conversion (src/main.rs lines 265-277).
The `todo!()` arms panic at runtime; a panic is modelled as `none`. -/
def fromRizzError : RizzError → Option Error
  | RizzError.ConnectionClosed => none
  | RizzError.Close _ => none
  | RizzError.Database err => some (Error.Database err)
  | RizzError.MissingFrom => none
  | RizzError.InsertError _ => none
  | RizzError.SqlConversion _ => none
  | RizzError.RowNotFound => some Error.NotFound

/-- Rendered markup, modelling `maud::Markup`.  Concatenation of fragments is
`seq2`; `nil` is the empty fragment; `elem` is one element with its attribute
list and its (concatenated) children. -/
inductive Markup where
  | nil : Markup
  | text : String → Markup
  | seq2 : Markup → Markup → Markup
  | elem : String → List (String × String) → Markup → Markup
deriving DecidableEq, Repr

/-- HTTP responses produced by the handlers: a rendered HTML page, a
redirect, a static file (content type, cache-control header, body bytes),
or a plain-text response (used by `IntoResponse for Error`). -/
inductive Response where
  | page : Nat → Markup → Response
  | redirect : String → Response
  | file : Nat → String → String → List Nat → Response
  | plain : Nat → String → Response
deriving DecidableEq, Repr

/-- Status code of a response.  `axum::response::Redirect::to` responds with
303 See Other; successful pages and files are 200. -/
def Response.status : Response → Nat
  | Response.page s _ => s
  | Response.redirect _ => 303
  | Response.file s _ _ _ => s
  | Response.plain s _ => s

/-- The `IntoResponse` impl for `Error` (src/main.rs lines 221-230):
`NotFound` becomes 404 "not found", `Database(_)` becomes 500
"internal server error". -/
def Error.intoResponse : Error → Response
  | Error.NotFound => Response.plain 404 "not found"
  | Error.Database _ => Response.plain 500 "internal server error"

/-- A persisted bookmark row, src/main.rs `struct Link` (lines 302-307).
The `f64` `created_at` is modelled as a rational. -/
structure Link where
  id : String
  url : String
  created_at : ℚ
deriving DecidableEq, Repr

/-- The database contents: the `links` table rows in insertion order. -/
abbrev DB := List Link

/-- Modelled from the spec: the unique index on `links.url` (declared by
`migrate`, src/main.rs lines 321-328) is enforced by the storage engine,
whose code is not part of this repository.  `db.insert_into(links).values(l)`
appends the row and reports one affected row; if a row with the same `url`
already exists the statement fails with a `Database` error and the stored
rows are unchanged. -/
def insertLink (db : DB) (l : Link) : DB × Except Error Nat :=
  if db.any (fun r => r.url == l.url) then
    (db, Except.error (Error.Database "UNIQUE constraint failed: links.url"))
  else
    (db ++ [l], Except.ok 1)

/-- Ordering used by the `links` query: `order(vec![desc(links.created_at)])`
sorts rows so that earlier rows have the larger `created_at`. -/
def createdDesc (a b : Link) : Prop := b.created_at ≤ a.created_at

instance : DecidableRel createdDesc := fun a b =>
  inferInstanceAs (Decidable (b.created_at ≤ a.created_at))

instance : IsTotal Link createdDesc :=
  ⟨fun a b => (le_total b.created_at a.created_at)⟩

instance : IsTrans Link createdDesc :=
  ⟨fun _ _ _ hab hbc => le_trans hbc hab⟩

/-- The `Context::links` query (src/main.rs lines 208-218):
`select().from(links).order(vec![desc(links.created_at)]).limit(10).all()`.
Modelled from the spec for the engine side: rows come back ordered by
`created_at` descending, truncated to the first `limit` rows. -/
def listRecent (db : DB) (limit : Nat) : List Link :=
  (db.insertionSort createdDesc).take limit

/-- `Context::links` fixes the limit at 10. -/
def Context.links (db : DB) : List Link := listRecent db 10

/-- Schema state of the SQLite file: which tables and which unique indexes
(table, indexed columns) exist. -/
structure Schema where
  tables : List String
  indexes : List (String × List String)
deriving DecidableEq, Repr

/-- Modelled from the spec: `migrate` (src/main.rs lines 321-328) runs
`db.create_table(links).create_unique_index(links, vec![links.url]).migrate()`
through the `rizz` crate, whose code is not part of this repository; per the
spec it creates the `links` table and its unique index on `url` if absent and
is a no-op otherwise, never an error. -/
def migrate (s : Schema) : Except Error Schema :=
  Except.ok
    { tables := if "links" ∈ s.tables then s.tables else s.tables ++ ["links"]
      indexes :=
        if ("links", ["url"]) ∈ s.indexes then s.indexes
        else s.indexes ++ [("links", ["url"])] }

/-- The closed route enumeration, src/main.rs `enum Route` (lines 29-33). -/
inductive Route where
  | Home : Route
  | File : Route
deriving DecidableEq, Repr

/-- `From<Route> for &'static str` (src/main.rs lines 42-49). -/
def Route.path : Route → String
  | Route.Home => "/"
  | Route.File => "/pub/*file"

/-- The `text_input` helper (src/main.rs lines 244-248). -/
def textInput (name : String) : Markup :=
  Markup.elem "input"
    [("autofocus", ""), ("type", "text"),
     ("class", "p-2 py-3 text-xl bg-gray-100 dark:bg-gray-600 rounded-md outline-none"),
     ("name", name), ("tabindex", "0")] Markup.nil

/-- The `button` helper (src/main.rs lines 250-256). -/
def button (name : String) : Markup :=
  Markup.elem "button"
    [("type", "submit"), ("class", "px-2 py-4 bg-orange-500 rounded-md hover:bg-orange-400")]
    (Markup.text name)

/-- The home-page view model, src/main.rs `struct HomeComponent`
(lines 61-64). -/
structure HomeComponent where
  error : Option String
  links : List Link
deriving DecidableEq, Repr

/-- Concatenation of a list of fragments, as maud's `@for` loop produces. -/
def markupList : List Markup → Markup
  | [] => Markup.nil
  | m :: ms => Markup.seq2 m (markupList ms)

/-- `Component::html` for `HomeComponent` (src/main.rs lines 66-85): the
submission form, the optional error message, then the list of links as
anchors. -/
def HomeComponent.html (c : HomeComponent) : Markup :=
  Markup.seq2
    (Markup.elem "form"
      [("class", "flex flex-col w-full gap-3"), ("action", Route.path Route.Home),
       ("method", "post")]
      (Markup.seq2 (textInput "url") (button "Add link")))
    (Markup.seq2
      (match c.error with
       | some err => Markup.text err
       | none => Markup.nil)
      (Markup.elem "div"
        [("class", "w-full flex flex-col gap-4 divide-y dark:divide-gray-700 divide-gray-200")]
        (markupList (c.links.map fun link =>
          Markup.elem "a"
            [("class", "text-2xl text-sky-500 underline hover:text-sky-300"),
             ("href", link.url)]
            (Markup.text link.url)))))

/-- The fixed page shell built by `Context::render` (src/main.rs
lines 185-206) around a component body. -/
def pageShell (body : Markup) : Markup :=
  Markup.seq2 (Markup.text "<!DOCTYPE html>")
    (Markup.elem "html" [("lang", "en")]
      (Markup.seq2
        (Markup.elem "head" []
          (Markup.seq2 (Markup.elem "title" [] (Markup.text "links"))
          (Markup.seq2
            (Markup.elem "meta"
              [("name", "viewport"), ("content", "width=device-width, initial-scale=1")]
              Markup.nil)
          (Markup.seq2 (Markup.elem "meta" [("charset", "UTF-8")] Markup.nil)
          (Markup.seq2
            (Markup.elem "link" [("rel", "stylesheet"), ("href", "./pub/tailwind.css")]
              Markup.nil)
          (Markup.seq2
            (Markup.elem "script" [("src", "./pub/htmx.org@1.9.5.js")] Markup.nil)
            (Markup.elem "script" [("src", "./pub/json-enc.js")] Markup.nil)))))))
        (Markup.elem "body"
          [("class", "bg-white dark:bg-gray-950 dark:text-white"), ("hx-boost", "true"),
           ("hx-ext", "json-enc")]
          (Markup.elem "div"
            [("class", "max-w-lg mx-auto w-full lg:px-0 px-3 h-screen flex flex-col gap-3")]
            (Markup.seq2
              (Markup.elem "h1" [("class", "text-2xl lg:text-4xl text-center")]
                (Markup.text "links"))
              body)))))

/-- `Context::render` (src/main.rs lines 185-206): wraps the component body
in the page shell.  It is unconditionally `Ok`. -/
def Context.render (body : Markup) : Except Error Markup :=
  Except.ok (pageShell body)

/-- `Result<Markup, Error>::into_response`: the `Ok` branch responds with the
markup as a 200 HTML page, the `Err` branch with the error response. -/
def resultIntoResponse : Except Error Markup → Response
  | Except.ok m => Response.page 200 m
  | Except.error e => e.intoResponse

/-- Rust's `str::starts_with` on string slices: the pattern is a character
prefix of the subject. -/
def strStartsWith (s pre : String) : Bool := pre.toList.isPrefixOf s.toList

/-- Storage operations a handler performs, in order: used to state that the
validation-failure branch of `add_link` never reaches the insert. -/
inductive Op where
  | select : Op
  | insert : Link → Op
deriving DecidableEq, Repr

/-- The form body of the POST handler, src/main.rs `struct LinkParams`
(lines 95-98). -/
structure LinkParams where
  url : String
deriving DecidableEq, Repr

/-- The `add_link` handler (src/main.rs lines 100-118).  `newId` stands for
the generated `nanoid` and `t` for `now()`.  Returns the database after the
request, the storage operations performed, and the handler result. -/
def add_link (db : DB) (params : LinkParams) (newId : String) (t : ℚ) :
    DB × List Op × Except Error Response :=
  if ¬ strStartsWith params.url "https://" then
    let links := Context.links db
    let home : HomeComponent := { error := some "Url needs to start with https://", links }
    (db, [Op.select], Except.ok (resultIntoResponse (Context.render home.html)))
  else
    let l : Link := { url := params.url, created_at := t, id := newId }
    match insertLink db l with
    | (db', Except.ok _) => (db', [Op.insert l], Except.ok (Response.redirect (Route.path Route.Home)))
    | (db', Except.error e) => (db', [Op.insert l], Except.error e)

/-- The `home` handler (src/main.rs lines 87-93). -/
def home (db : DB) : Except Error Markup :=
  Context.render (HomeComponent.html { error := none, links := Context.links db })

/-- The pattern removed from asset paths: the four characters of "pub/". -/
def pubPat : List Char := ['p', 'u', 'b', '/']

/-- Fuel-indexed worker for `str::replace("pub/", "")`: removes every
non-overlapping occurrence of `pubPat`, scanning left to right.  The fuel is
always at least the list length at every call, so the `0` case is never the
one that decides the result. -/
def stripPubsAux : Nat → List Char → List Char
  | 0, l => l
  | _ + 1, [] => []
  | fuel + 1, c :: cs =>
    if pubPat.isPrefixOf (c :: cs) then stripPubsAux fuel (cs.drop 3)
    else c :: stripPubsAux fuel cs

/-- Rust's `path.replace("pub/", "")` (src/main.rs line 127): removes every
non-overlapping occurrence of "pub/", not only a leading one. -/
def stripPubs (l : List Char) : List Char := stripPubsAux l.length l

/-- Whether the list contains an occurrence of "pub/" anywhere. -/
def containsPub : List Char → Bool
  | [] => false
  | c :: cs => pubPat.isPrefixOf (c :: cs) || containsPub cs

/-- Path rewriting done by the `files` handler (src/main.rs lines 124-130):
`uri.path().trim_start_matches('/')`, then, when the result starts with
"pub/", `replace("pub/", "")`. -/
def filesPath (uriPath : List Char) : List Char :=
  if pubPat.isPrefixOf (uriPath.dropWhile (fun c => c == '/')) then
    stripPubs (uriPath.dropWhile (fun c => c == '/'))
  else uriPath.dropWhile (fun c => c == '/')

/-- The path rewriting as the spec words it: strip the asset route prefix
(one leading "pub/" after trimming slashes), keeping the remainder intact.
Stated for comparison with `filesPath`, which is taken from the source. -/
def specStripPath (uriPath : List Char) : List Char :=
  let path := uriPath.dropWhile (fun c => c == '/')
  if pubPat.isPrefixOf path then path.drop 4 else path

/-- Extension of a path: the characters after the last dot, if any. -/
def extOf (p : List Char) : Option (List Char) :=
  if '.' ∈ p then some ((p.reverse.takeWhile (fun c => c ≠ '.')).reverse) else none

/-- Extension-to-content-type table (a fragment of the `mime_guess` data). -/
def mimeTable : List (List Char × String) :=
  [(['c', 's', 's'], "text/css"), (['j', 's'], "application/javascript")]

/-- Modelled from the spec: `mime_guess::from_path(path).first_or_octet_stream()`
(src/main.rs line 146) comes from the `mime_guess` crate, which is not part
of this repository; per the spec the content type is inferred from the file
extension, with a generic octet-stream type when unknown. -/
def mimeGuess (p : List Char) : String :=
  match extOf p with
  | none => "application/octet-stream"
  | some e => (mimeTable.lookup e).getD "application/octet-stream"

/-- The compiled-in asset bundle (`RustEmbed` over the `pub` folder):
an immutable map from paths to byte contents. -/
abbrev Bundle := List (List Char × List Nat)

/-- `StaticFile::maybe_response` (src/main.rs lines 142-153): look the path up
in the bundle (`Files::get`), `NotFound` when absent, otherwise a response
with the asset bytes, the guessed content type and the one-week public
cache-control header. -/
def maybeResponse (bundle : Bundle) (path : List Char) : Except Error Response :=
  match bundle.lookup path with
  | none => Except.error Error.NotFound
  | some data =>
      Except.ok (Response.file 200 (mimeGuess path) "public, max-age=604800" data)

/-- The `files` handler composed with `IntoResponse for StaticFile`
(src/main.rs lines 124-130 and 156-164): rewrite the path, then
`maybe_response(..).unwrap_or(Error::NotFound.into_response())`. -/
def files (bundle : Bundle) (uriPath : List Char) : Response :=
  match maybeResponse bundle (filesPath uriPath) with
  | Except.ok r => r
  | Except.error e => e.intoResponse

/-- HTTP methods, as far as dispatch distinguishes them. -/
inductive Method where
  | GET : Method
  | POST : Method
  | PUT : Method
  | DELETE : Method
  | PATCH : Method
  | HEAD : Method
deriving DecidableEq, Repr

/-- Whether a request path matches the `Route::Home` pattern "/". -/
def matchesHome (p : String) : Bool := p == "/"

/-- Whether a request path matches the `Route::File` pattern "/pub/*file":
the wildcard needs at least one character after "/pub/". -/
def matchesFile (p : String) : Bool :=
  ("/pub/".toList).isPrefixOf p.toList && decide (5 < p.length)

/-- Which piece of code handles a request. -/
inductive Handler where
  | home : Handler
  | addLink : Handler
  | files : Handler
  | fallback : Handler
  | methodNotAllowed : Handler
deriving DecidableEq, Repr

/-- The router built by `routes()` (src/main.rs lines 51-59): "/" dispatches
GET to `home` and POST to `add_link`, "/pub/*file" dispatches GET to `files`,
and every unmatched path goes to the `not_found` fallback. -/
def dispatch (m : Method) (p : String) : Handler :=
  if matchesHome p then
    if m = Method.GET then Handler.home
    else if m = Method.POST then Handler.addLink
    else Handler.methodNotAllowed
  else if matchesFile p then
    if m = Method.GET then Handler.files
    else Handler.methodNotAllowed
  else Handler.fallback

/-- The `not_found` fallback handler (src/main.rs lines 120-122): it returns
`Error::NotFound`, whose response is 404 "not found". -/
def not_found : Response := Error.NotFound.intoResponse

/-- SQLite journal modes, as far as the connection setup names them. -/
inductive JournalMode where
  | Delete : JournalMode
  | Wal : JournalMode
deriving DecidableEq, Repr

/-- SQLite synchronous levels, as far as the connection setup names them. -/
inductive Synchronous where
  | Off : Synchronous
  | Normal : Synchronous
  | Full : Synchronous
deriving DecidableEq, Repr

/-- Options a connection is opened with. -/
structure ConnSettings where
  path : String
  createIfMissing : Bool
  journalMode : JournalMode
  synchronous : Synchronous
  foreignKeys : Bool
deriving DecidableEq, Repr

/-- The options used by `database()` (src/main.rs lines 285-290):
`Connection::new("db.sqlite3").create_if_missing(true)
.journal_mode(Wal).synchronous(Normal).foreign_keys(true)`. -/
def linksConnSettings : ConnSettings :=
  { path := "db.sqlite3", createIfMissing := true, journalMode := JournalMode.Wal
    synchronous := Synchronous.Normal, foreignKeys := true }

/-- An opened connection handle: its settings plus an identity tag saying
which `open()` call produced it. -/
structure Conn where
  settings : ConnSettings
  connId : Nat
deriving DecidableEq, Repr

/-- The `database()` accessor (src/main.rs lines 279-300) over the
`OnceLock<Database>` global.  The state is the `OnceLock` contents together
with a counter of connections opened so far; the result is the new state,
the new counter, and the handle handed to the caller.  When the lock is
already set the stored handle is cloned and no connection is opened;
otherwise a connection is opened with `linksConnSettings` and stored. -/
def database : Option Conn → Nat → Option Conn × Nat × Conn
  | some db, opened => (some db, opened, db)
  | none, opened =>
      (some { settings := linksConnSettings, connId := opened }, opened + 1,
        { settings := linksConnSettings, connId := opened })

/-! Helper lemmas about the pattern-removal function of the asset server. -/

/-- Unfolding of `stripPubsAux` at a cons cell. -/
theorem stripPubsAux_cons (fuel : Nat) (c : Char) (cs : List Char) :
    stripPubsAux (fuel + 1) (c :: cs) =
      if pubPat.isPrefixOf (c :: cs) then stripPubsAux fuel (cs.drop 3)
      else c :: stripPubsAux fuel cs := rfl

/-- The fuel of `stripPubsAux` is irrelevant as long as it covers the list
length. -/
theorem stripPubsAux_congr :
    ∀ f₁ f₂ l, l.length ≤ f₁ → l.length ≤ f₂ → stripPubsAux f₁ l = stripPubsAux f₂ l := by
  intro f₁
  induction f₁ with
  | zero =>
    intro f₂ l h1 _
    have : l = [] := List.length_eq_zero.mp (Nat.le_zero.mp h1)
    subst this
    cases f₂ <;> rfl
  | succ f ih =>
    intro f₂ l h1 h2
    cases l with
    | nil => cases f₂ <;> rfl
    | cons c cs =>
      cases f₂ with
      | zero => simp at h2
      | succ g =>
        rw [stripPubsAux_cons, stripPubsAux_cons]
        by_cases hp : pubPat.isPrefixOf (c :: cs) = true
        · rw [if_pos hp, if_pos hp]
          apply ih
          · have := List.length_drop 3 cs
            simp at h1 ⊢
            omega
          · have := List.length_drop 3 cs
            simp at h2 ⊢
            omega
        · rw [if_neg hp, if_neg hp]
          have h1' : cs.length ≤ f := by simp at h1; omega
          have h2' : cs.length ≤ g := by simp at h2; omega
          rw [ih g cs h1' h2']

/-- Lists without an occurrence of "pub/" are untouched by `stripPubs`. -/
theorem stripPubs_no_occurrence : ∀ l, containsPub l = false → stripPubs l = l := by
  intro l
  induction l with
  | nil => intro _; rfl
  | cons c cs ih =>
    intro h
    simp only [containsPub, Bool.or_eq_false_iff] at h
    show stripPubsAux (cs.length + 1) (c :: cs) = c :: cs
    rw [stripPubsAux_cons, if_neg (by simp [h.1])]
    exact congrArg (c :: ·) (ih h.2)

/-- `stripPubs` removes a leading "pub/" and continues on the remainder. -/
theorem stripPubs_pub_append (rest : List Char) :
    stripPubs (pubPat ++ rest) = stripPubs rest := by
  have hp : pubPat.isPrefixOf ('p' :: 'u' :: 'b' :: '/' :: rest) = true := by
    simp [pubPat, List.isPrefixOf]
  show stripPubsAux (pubPat ++ rest).length (pubPat ++ rest) = stripPubsAux rest.length rest
  have hlen : (pubPat ++ rest).length = rest.length + 3 + 1 := by simp [pubPat]
  have hform : pubPat ++ rest = 'p' :: 'u' :: 'b' :: '/' :: rest := rfl
  rw [hlen, hform, stripPubsAux_cons, if_pos hp]
  have hd : List.drop 3 ('u' :: 'b' :: '/' :: rest) = rest := rfl
  rw [hd]
  exact stripPubsAux_congr (rest.length + 3) rest.length rest (by omega) (le_refl _)

/-! Claim theorems. -/

/-- C1: for every submitted URL string that does not start with "https://",
`add_link` never invokes the insert operation (the only storage operation is
the links select), and its response is the re-rendered home page carrying the
existing, unchanged link list plus the validation error message. -/
theorem add_link_rejects_non_https (db : DB) (params : LinkParams) (newId : String) (t : ℚ)
    (h : strStartsWith params.url "https://" = false) :
    add_link db params newId t =
      (db, [Op.select],
        Except.ok (Response.page 200 (pageShell (HomeComponent.html
          { error := some "Url needs to start with https://", links := Context.links db })))) := by
  simp [add_link, h, Context.render, resultIntoResponse]

/-- Witness for C1 at a concrete non-https submission. -/
theorem add_link_rejects_non_https_witness :
    strStartsWith "http://example.com" "https://" = false
    ∧ add_link [] { url := "http://example.com" } "id0" 0 =
      ([], [Op.select],
        Except.ok (Response.page 200 (pageShell (HomeComponent.html
          { error := some "Url needs to start with https://", links := Context.links [] })))) :=
  ⟨by decide, add_link_rejects_non_https [] { url := "http://example.com" } "id0" 0 (by decide)⟩

/-- C2: the `From<rizz::Error>` conversion is not total: the arms for
`ConnectionClosed`, `Close`, `MissingFrom`, `InsertError` and `SqlConversion`
are `todo!()` panics (modelled as `none`) instead of mapping into the
taxonomy; only `Database` and `RowNotFound` are mapped.  The dispatcher side
of the claim holds: `NotFound` responds 404 and `Database` responds 500. -/
theorem rizz_error_conversion_gaps :
    fromRizzError RizzError.ConnectionClosed = none
    ∧ fromRizzError RizzError.MissingFrom = none
    ∧ (∀ s, fromRizzError (RizzError.Close s) = none)
    ∧ (∀ s, fromRizzError (RizzError.InsertError s) = none)
    ∧ (∀ s, fromRizzError (RizzError.SqlConversion s) = none)
    ∧ (∀ s, fromRizzError (RizzError.Database s) = some (Error.Database s))
    ∧ fromRizzError RizzError.RowNotFound = some Error.NotFound
    ∧ Error.NotFound.intoResponse.status = 404
    ∧ (∀ s, (Error.Database s).intoResponse.status = 500) :=
  ⟨rfl, rfl, fun _ => rfl, fun _ => rfl, fun _ => rfl, fun _ => rfl, rfl, rfl, fun _ => rfl⟩

/-- C6: `migrate` succeeds on every schema state, and running it a second
time on the resulting schema returns that schema unchanged with no error. -/
theorem migrate_idempotent (s : Schema) :
    ∃ s', migrate s = Except.ok s' ∧ migrate s' = Except.ok s' := by
  refine ⟨_, rfl, ?_⟩
  have ht : "links" ∈ (if "links" ∈ s.tables then s.tables else s.tables ++ ["links"]) := by
    split
    · assumption
    · simp
  have hi : ("links", ["url"]) ∈
      (if ("links", ["url"]) ∈ s.indexes then s.indexes
       else s.indexes ++ [("links", ["url"])]) := by
    split
    · assumption
    · simp
  simp [migrate, ht, hi]

/-- C8: a request whose path matches neither declared route is dispatched to
the fallback, whatever the method; the fallback's response is 404
"not found". -/
theorem unmatched_path_falls_back (m : Method) (p : String)
    (h1 : matchesHome p = false) (h2 : matchesFile p = false) :
    dispatch m p = Handler.fallback
    ∧ not_found = Response.plain 404 "not found"
    ∧ not_found.status = 404 := by
  refine ⟨?_, rfl, rfl⟩
  simp [dispatch, h1, h2]

/-- Witness for C8 at the spec's example path "/nope" with a non-GET
method. -/
theorem unmatched_path_falls_back_witness :
    matchesHome "/nope" = false
    ∧ matchesFile "/nope" = false
    ∧ (dispatch Method.POST "/nope" = Handler.fallback
      ∧ not_found = Response.plain 404 "not found"
      ∧ not_found.status = 404) :=
  ⟨by decide, by decide, unmatched_path_falls_back Method.POST "/nope" (by decide) (by decide)⟩

/-- C9: when the `OnceLock` is empty, `database()` opens one connection with
the WAL journal mode, normal synchronous durability and foreign keys enabled,
stores it, and returns it; when the lock already holds a handle, the very
same handle is returned and the count of opened connections does not move. -/
theorem database_initialized_once (db : Conn) (opened : Nat) :
    database none opened =
      (some { settings := linksConnSettings, connId := opened }, opened + 1,
        { settings := linksConnSettings, connId := opened })
    ∧ database (some db) opened = (some db, opened, db)
    ∧ linksConnSettings.journalMode = JournalMode.Wal
    ∧ linksConnSettings.synchronous = Synchronous.Normal
    ∧ linksConnSettings.foreignKeys = true :=
  ⟨rfl, rfl, rfl, rfl, rfl⟩

/-- C10: when the https check fails, the handler result is `Ok` carrying the
rendered markup as a status-200 page, and `Context::render` is
unconditionally `Ok` on every component body. -/
theorem validation_failure_responds_200 (db : DB) (params : LinkParams) (newId : String) (t : ℚ)
    (h : strStartsWith params.url "https://" = false) :
    (add_link db params newId t).2.2 =
      Except.ok (Response.page 200 (pageShell (HomeComponent.html
        { error := some "Url needs to start with https://", links := Context.links db })))
    ∧ (∀ r : Response, (add_link db params newId t).2.2 = Except.ok r → r.status = 200)
    ∧ (∀ body : Markup, Context.render body = Except.ok (pageShell body)) := by
  have hbranch : (add_link db params newId t).2.2 =
      Except.ok (Response.page 200 (pageShell (HomeComponent.html
        { error := some "Url needs to start with https://", links := Context.links db }))) := by
    simp [add_link, h, Context.render, resultIntoResponse]
  refine ⟨hbranch, ?_, fun _ => rfl⟩
  intro r hr
  rw [hbranch] at hr
  cases hr
  rfl

/-- Witness for C10 at a concrete non-https submission. -/
theorem validation_failure_responds_200_witness :
    strStartsWith "ftp://example.com" "https://" = false
    ∧ ((add_link [] { url := "ftp://example.com" } "id0" 0).2.2 =
        Except.ok (Response.page 200 (pageShell (HomeComponent.html
          { error := some "Url needs to start with https://", links := Context.links [] })))
      ∧ (∀ r : Response, (add_link [] { url := "ftp://example.com" } "id0" 0).2.2 =
          Except.ok r → r.status = 200)
      ∧ (∀ body : Markup, Context.render body = Except.ok (pageShell body))) :=
  ⟨by decide, validation_failure_responds_200 [] { url := "ftp://example.com" } "id0" 0 (by decide)⟩

/-- C4: for every submitted URL that starts with "https://" and whose insert
succeeds (no stored row already has that url), `add_link` appends exactly one
new row whose `url` equals the submitted value and responds with a redirect
to "/". -/
theorem add_link_accepts_https (db : DB) (params : LinkParams) (newId : String) (t : ℚ)
    (hs : strStartsWith params.url "https://" = true)
    (hnew : ∀ r ∈ db, r.url ≠ params.url) :
    add_link db params newId t =
      (db ++ [{ id := newId, url := params.url, created_at := t }],
        [Op.insert { id := newId, url := params.url, created_at := t }],
        Except.ok (Response.redirect "/")) := by
  have hany : db.any (fun r => r.url == params.url) = false := by
    rw [List.any_eq_false]
    intro r hr
    simpa using hnew r hr
  simp [add_link, hs, insertLink, hany, Route.path]

/-- Witness for C4 at a concrete https submission over the empty store. -/
theorem add_link_accepts_https_witness :
    strStartsWith "https://example.com" "https://" = true
    ∧ add_link [] { url := "https://example.com" } "id1" 1 =
      ([{ id := "id1", url := "https://example.com", created_at := 1 }],
        [Op.insert { id := "id1", url := "https://example.com", created_at := 1 }],
        Except.ok (Response.redirect "/")) :=
  ⟨by decide,
    add_link_accepts_https [] { url := "https://example.com" } "id1" 1 (by decide)
      (by intro r hr; simp at hr)⟩

/-- C5: when some stored row already carries the url being inserted, the
insert fails with a `Database` error and the stored rows are unchanged; the
same happens through `add_link` for a duplicate https url. -/
theorem insert_duplicate_url_fails (db : DB) (l : Link)
    (hdup : ∃ r ∈ db, r.url = l.url) :
    insertLink db l =
      (db, Except.error (Error.Database "UNIQUE constraint failed: links.url"))
    ∧ ∀ newId t, strStartsWith l.url "https://" = true →
        add_link db { url := l.url } newId t =
          (db, [Op.insert { id := newId, url := l.url, created_at := t }],
            Except.error (Error.Database "UNIQUE constraint failed: links.url")) := by
  obtain ⟨r, hr, hurl⟩ := hdup
  have hany : db.any (fun x => x.url == l.url) = true :=
    List.any_eq_true.mpr ⟨r, hr, by simp [hurl]⟩
  constructor
  · simp [insertLink, hany]
  · intro newId t hs
    simp [add_link, hs, insertLink, hany]

/-- Witness for C5: a second link with an already-stored url is rejected. -/
theorem insert_duplicate_url_fails_witness :
    (∃ r ∈ [({ id := "id1", url := "https://example.com", created_at := 1 } : Link)],
        r.url = "https://example.com")
    ∧ (insertLink [{ id := "id1", url := "https://example.com", created_at := 1 }]
          { id := "id2", url := "https://example.com", created_at := 2 } =
        ([{ id := "id1", url := "https://example.com", created_at := 1 }],
          Except.error (Error.Database "UNIQUE constraint failed: links.url"))
      ∧ ∀ newId t,
          strStartsWith "https://example.com" "https://" = true →
          add_link [{ id := "id1", url := "https://example.com", created_at := 1 }]
              { url := "https://example.com" } newId t =
            ([{ id := "id1", url := "https://example.com", created_at := 1 }],
              [Op.insert { id := newId, url := "https://example.com", created_at := t }],
              Except.error (Error.Database "UNIQUE constraint failed: links.url"))) :=
  ⟨by decide,
    insert_duplicate_url_fails [{ id := "id1", url := "https://example.com", created_at := 1 }]
      { id := "id2", url := "https://example.com", created_at := 2 } (by decide)⟩

/-- C3: the links query returns at most 10 rows; on a store whose rows carry
pairwise distinct timestamps (the data-model invariant: `created_at` strictly
reflects insertion time) the result is strictly descending in `created_at`;
the empty store yields the empty list; and inserting `A` then `B` then `C`
with increasing timestamps into the empty store, each insert succeeding,
yields the query result `[C, B, A]`. -/
theorem links_query_ordered (db : DB)
    (hdist : db.Pairwise (fun a b => a.created_at ≠ b.created_at))
    (A B C : Link)
    (hAB : A.url ≠ B.url) (hAC : A.url ≠ C.url) (hBC : B.url ≠ C.url)
    (tAB : A.created_at < B.created_at) (tBC : B.created_at < C.created_at) :
    (Context.links db).length ≤ 10
    ∧ List.Sorted (fun a b : Link => b.created_at < a.created_at) (Context.links db)
    ∧ Context.links ([] : DB) = []
    ∧ insertLink [] A = ([A], Except.ok 1)
    ∧ insertLink [A] B = ([A, B], Except.ok 1)
    ∧ insertLink [A, B] C = ([A, B, C], Except.ok 1)
    ∧ Context.links [A, B, C] = [C, B, A] := by
  have tAC : A.created_at < C.created_at := tAB.trans tBC
  refine ⟨?_, ?_, rfl, ?_, ?_, ?_, ?_⟩
  · simp only [Context.links, listRecent]
    rw [List.length_take]
    exact min_le_left _ _
  · have hs : List.Sorted createdDesc (db.insertionSort createdDesc) :=
      List.sorted_insertionSort createdDesc db
    have hperm : (db.insertionSort createdDesc).Perm db :=
      List.perm_insertionSort createdDesc db
    have hne : (db.insertionSort createdDesc).Pairwise
        (fun a b => a.created_at ≠ b.created_at) :=
      (hperm.pairwise_iff (fun hxy => Ne.symm hxy)).2 hdist
    have hstrict : (db.insertionSort createdDesc).Pairwise
        (fun a b => b.created_at < a.created_at) :=
      (hs.and hne).imp (fun hab => lt_of_le_of_ne hab.1 (Ne.symm hab.2))
    exact hstrict.sublist (List.take_sublist 10 _)
  · simp [insertLink]
  · simp [insertLink, beq_iff_eq, hAB]
  · simp [insertLink, beq_iff_eq, hAC, hBC]
  · simp [Context.links, listRecent, List.insertionSort, List.orderedInsert, createdDesc,
      not_le.mpr tAB, not_le.mpr tBC, not_le.mpr tAC]

/-- Witness for C3 over the empty store and three concrete links. -/
theorem links_query_ordered_witness :
    (Context.links []).length ≤ 10
    ∧ List.Sorted (fun a b : Link => b.created_at < a.created_at) (Context.links [])
    ∧ Context.links ([] : DB) = []
    ∧ insertLink [] { id := "ida", url := "https://a", created_at := 1 } =
      ([{ id := "ida", url := "https://a", created_at := 1 }], Except.ok 1)
    ∧ insertLink [{ id := "ida", url := "https://a", created_at := 1 }]
        { id := "idb", url := "https://b", created_at := 2 } =
      ([{ id := "ida", url := "https://a", created_at := 1 },
        { id := "idb", url := "https://b", created_at := 2 }], Except.ok 1)
    ∧ insertLink [{ id := "ida", url := "https://a", created_at := 1 },
          { id := "idb", url := "https://b", created_at := 2 }]
        { id := "idc", url := "https://c", created_at := 3 } =
      ([{ id := "ida", url := "https://a", created_at := 1 },
        { id := "idb", url := "https://b", created_at := 2 },
        { id := "idc", url := "https://c", created_at := 3 }], Except.ok 1)
    ∧ Context.links [{ id := "ida", url := "https://a", created_at := 1 },
        { id := "idb", url := "https://b", created_at := 2 },
        { id := "idc", url := "https://c", created_at := 3 }] =
      [{ id := "idc", url := "https://c", created_at := 3 },
        { id := "idb", url := "https://b", created_at := 2 },
        { id := "ida", url := "https://a", created_at := 1 }] :=
  links_query_ordered [] List.Pairwise.nil
    { id := "ida", url := "https://a", created_at := 1 }
    { id := "idb", url := "https://b", created_at := 2 }
    { id := "idc", url := "https://c", created_at := 3 }
    (by decide) (by decide) (by decide) (by decide) (by decide)

/-- Counterexample for C7 as stated: the handler does not strip the "pub/"
prefix once, it removes every occurrence.  For the in-prefix path
"/pub/pub/a.css" the spec's rewriting leaves "pub/a.css", yet the code looks
up "a.css"; with a bundle that contains exactly "pub/a.css" the code answers
404 even though the claim's lookup succeeds. -/
theorem files_strip_once_cex :
    filesPath ("/pub/pub/a.css".toList) = "a.css".toList
    ∧ specStripPath ("/pub/pub/a.css".toList) = "pub/a.css".toList
    ∧ filesPath ("/pub/pub/a.css".toList) ≠ specStripPath ("/pub/pub/a.css".toList)
    ∧ files [("pub/a.css".toList, [0])] ("/pub/pub/a.css".toList) =
        Response.plain 404 "not found"
    ∧ List.lookup ("pub/a.css".toList) [("pub/a.css".toList, [0])] = some [0] := by
  decide

/-- C7 as amended: the handler trims leading slashes and removes every
occurrence of "pub/" from the path — which coincides with stripping the
prefix once whenever the remainder contains no further "pub/" — then looks
the result up in the bundle: absent paths give the 404 "not found" response,
present paths give the asset bytes with the extension-inferred content type
(octet-stream when there is no known extension) and the public one-week
cache directive. -/
theorem files_asset_route (bundle : Bundle) (rest : List Char)
    (hnp : containsPub rest = false) :
    filesPath ("/pub/".toList ++ rest) = rest
    ∧ (bundle.lookup rest = none →
        files bundle ("/pub/".toList ++ rest) = Response.plain 404 "not found")
    ∧ (∀ data, bundle.lookup rest = some data →
        files bundle ("/pub/".toList ++ rest) =
          Response.file 200 (mimeGuess rest) "public, max-age=604800" data)
    ∧ (extOf rest = none → mimeGuess rest = "application/octet-stream") := by
  have hdrop : ("/pub/".toList ++ rest).dropWhile (fun c => c == '/') = pubPat ++ rest := rfl
  have hp : pubPat.isPrefixOf (pubPat ++ rest) = true := by
    simp [pubPat, List.isPrefixOf]
  have hpath : filesPath ("/pub/".toList ++ rest) = rest := by
    rw [filesPath, hdrop, if_pos hp, stripPubs_pub_append, stripPubs_no_occurrence rest hnp]
  refine ⟨hpath, ?_, ?_, ?_⟩
  · intro hnone
    simp only [files, maybeResponse]
    rw [hpath, hnone]
    rfl
  · intro data hdata
    simp only [files, maybeResponse]
    rw [hpath, hdata]
  · intro hext
    simp [mimeGuess, hext]

/-- Witness for C7 as amended: a present stylesheet and its content type. -/
theorem files_asset_route_witness :
    containsPub ("style.css".toList) = false
    ∧ (filesPath ("/pub/".toList ++ "style.css".toList) = "style.css".toList
      ∧ (List.lookup ("style.css".toList) [("style.css".toList, [7])] = none →
          files [("style.css".toList, [7])] ("/pub/".toList ++ "style.css".toList) =
            Response.plain 404 "not found")
      ∧ (∀ data, List.lookup ("style.css".toList) [("style.css".toList, [7])] = some data →
          files [("style.css".toList, [7])] ("/pub/".toList ++ "style.css".toList) =
            Response.file 200 (mimeGuess ("style.css".toList)) "public, max-age=604800" data)
      ∧ (extOf ("style.css".toList) = none →
          mimeGuess ("style.css".toList) = "application/octet-stream")) :=
  ⟨by decide, files_asset_route [("style.css".toList, [7])] ("style.css".toList) (by decide)⟩

end Links
